import Mathlib

/-!
Verification of the gem-back resilience core (credential rotation, rate-limit
tracking, health monitoring, retry/fallback orchestration) against its
natural-language specification.  The definitions below are a shallow embedding
of the Python sources:
  - `src/python/gemback/types.py`
  - `src/python/gemback/rotators.py`
  - `src/python/gemback/monitoring/rate_limit.py`
  - `src/python/gemback/monitoring/health.py`
  - `src/python/gemback/client.py`
  - `src/client.py` (the simpler `GemBackClient` variant)
Python floats are modelled as rationals (ℚ), Python dicts keyed by strings as
insertion-ordered association lists, and `time.time()` as an abstract clock
`Nat → ℚ` indexed by a per-call tick counter (one tick per `time.time()` call,
in source order).  The external network collaborator is modelled as a function
from invocation number to `Except Err String` (error or response text).
-/

namespace Gemback

/-! ### String helpers: Python's `sub in s` and `str.lower()` -/

/-- Boolean list-prefix test (used to model Python substring containment). -/
def listPrefixOf : List Char → List Char → Bool
  | [], _ => true
  | _ :: _, [] => false
  | a :: as, b :: bs => a == b && listPrefixOf as bs

/-- Boolean substring containment on character lists: `sub` occurs inside `s`. -/
def listContainsSub (sub : List Char) : List Char → Bool
  | [] => listPrefixOf sub []
  | b :: bs => listPrefixOf sub (b :: bs) || listContainsSub sub bs

/-- Python's `sub in s` for strings. -/
def strContains (s sub : String) : Bool := listContainsSub sub.data s.data

/-- Python's `str.lower()`, modelled character-wise. -/
def strToLower (s : String) : String := ⟨s.data.map Char.toLower⟩

/-! ### Errors raised by the external call collaborator

Python duck-types errors: `client.py` reads `getattr(e, "code", None) or
getattr(e, "status_code", None)` and inspects `str(e)`.  `Err` carries both
optional numeric attributes and the message. -/

/-- An error value raised by the external generate-content call, as inspected
by `client.py` (`code` / `status_code` attributes and the string form). -/
structure Err where
  code : Option Nat := none
  status_code : Option Nat := none
  msg : String := ""
deriving DecidableEq

/-- `getattr(e, "code", None) or getattr(e, "status_code", None)`:
Python `or` falls through when the left side is falsy (`None` or `0`). -/
def errStatus (e : Err) : Option Nat :=
  match e.code with
  | some c => if c = 0 then e.status_code else some c
  | none => e.status_code

/-- `"timeout" in str(e).lower() or "connection" in str(e).lower()`
(`client.py` line 145). -/
def msgHasTransient (m : String) : Bool :=
  strContains (strToLower m) "timeout" || strContains (strToLower m) "connection"

/-- The `is_retryable` flag computed in `GemBack._generate_with_retry`
(`client.py` lines 136-146): status present, non-zero and ≥ 500, or a
timeout/connection message.  (The 429 check happens before this flag is
consulted, see `retryAux`.) -/
def is_retryable (e : Err) : Bool :=
  (match errStatus e with
   | some c => !(c = 0 : Bool) && decide (500 ≤ c)
   | none => false)
  || msgHasTransient e.msg

/-! ### The inner retry loop (`GemBack._generate_with_retry`) -/

/-- Observable trace of one `_generate_with_retry` call: final outcome, how
many times the collaborator was invoked, and the backoff delays slept. -/
structure RetryResult where
  result : Except Err String
  invocations : Nat
  delays : List ℚ

/-- The body of `GemBack._generate_with_retry` (`client.py` lines 123-155).
`budget` is the remaining retry budget (`max_retries - retries`), `attempt`
the 0-indexed invocation number, `delays` the backoff delays slept so far.
On error: status 429 is re-raised at once; a retryable error with budget left
sleeps `retry_delay * 2 ** (retries - 1)` and loops; otherwise re-raised. -/
def retryAux (d : ℚ) (invoke : Nat → Except Err String) :
    Nat → Nat → List ℚ → RetryResult
  | budget, attempt, delays =>
    match invoke attempt with
    | Except.ok s => ⟨Except.ok s, attempt + 1, delays⟩
    | Except.error e =>
      if errStatus e = some 429 then ⟨Except.error e, attempt + 1, delays⟩
      else if is_retryable e then
        match budget with
        | 0 => ⟨Except.error e, attempt + 1, delays⟩
        | b + 1 => retryAux d invoke b (attempt + 1) (delays ++ [d * 2 ^ attempt])
      else ⟨Except.error e, attempt + 1, delays⟩

/-- `GemBack._generate_with_retry(client, model, prompt)` with retry budget
`max_retries` and base delay `retry_delay`, over a collaborator `invoke`. -/
def generateWithRetry (max_retries : Nat) (retry_delay : ℚ)
    (invoke : Nat → Except Err String) : RetryResult :=
  retryAux retry_delay invoke max_retries 0 []

/-! ### `ApiKeyRotator` (`src/python/gemback/rotators.py`) -/

/-- Per-credential usage statistics (`rotators.py` `KeyStats`). -/
structure KeyStats where
  key_index : Nat
  total_requests : Nat := 0
  success_count : Nat := 0
  failure_count : Nat := 0
  last_used : ℚ := 0
deriving DecidableEq

/-- Default `KeyStats` value, used only to totalize list indexing in the
model (the Python dict access is guarded by the rotator's invariants). -/
def defaultKeyStats : KeyStats := ⟨0, 0, 0, 0, 0⟩

/-- The `ApiKeyRotator` state (`rotators.py` lines 14-21).  The Python
`stats` dict has keys exactly `0 .. len(api_keys)-1` in insertion order, so
it is modelled as a list indexed by position. -/
structure ApiKeyRotator where
  api_keys : List String
  strategy : String
  current_index : Nat
  stats : List KeyStats
deriving DecidableEq

/-- `ApiKeyRotator.__init__(api_keys, strategy)`. -/
def mkApiKeyRotator (api_keys : List String) (strategy : String) : ApiKeyRotator :=
  ⟨api_keys, strategy, 0, (List.range api_keys.length).map (fun i => ⟨i, 0, 0, 0, 0⟩)⟩

/-- Update the stats entry at position `i` (a no-op when out of range, which
in Python would be a `KeyError`; unreachable for constructed rotators). -/
def statsUpdate (l : List KeyStats) (i : Nat) (f : KeyStats → KeyStats) : List KeyStats :=
  l.set i (f (l.getD i defaultKeyStats))

/-- `min(self.stats.items(), key=lambda x: x[1].total_requests)[0]`:
the first key (in insertion order, i.e. index order) whose stats have the
minimum `total_requests`.  Python raises `ValueError` on an empty dict;
the guard in `get_next_key` makes that unreachable, so the model returns 0. -/
def leastUsedIndex (stats : List KeyStats) : Nat :=
  (stats.foldl
    (fun best s =>
      match best with
      | none => some s
      | some b => if s.total_requests < b.total_requests then some s else best)
    none).elim 0 KeyStats.key_index

/-- `ApiKeyRotator.get_next_key` (`rotators.py` lines 23-38).  `now` is the
`time.time()` value written into `last_used`.  Returns the selected key, its
index, and the updated rotator state. -/
def ApiKeyRotator.get_next_key (r : ApiKeyRotator) (now : ℚ) :
    Except String ((String × Nat) × ApiKeyRotator) :=
  if r.api_keys.isEmpty then Except.error "No API keys provided"
  else
    let pr : Nat × ApiKeyRotator :=
      if r.strategy == "round-robin" then
        (r.current_index,
         { r with current_index := (r.current_index + 1) % r.api_keys.length })
      else if r.strategy == "least-used" then
        (leastUsedIndex r.stats, r)
      else (0, r)
    let index := pr.1
    let r1 := pr.2
    let r2 := { r1 with stats := statsUpdate r1.stats index (fun s => { s with last_used := now }) }
    Except.ok ((r2.api_keys.getD index "", index), r2)

/-- `ApiKeyRotator.record_success` (`rotators.py` lines 40-43): silently does
nothing when `index` is not a key of the stats dict. -/
def ApiKeyRotator.record_success (r : ApiKeyRotator) (index : Nat) : ApiKeyRotator :=
  if index < r.stats.length then
    { r with stats := statsUpdate r.stats index (fun s =>
        { s with success_count := s.success_count + 1,
                 total_requests := s.total_requests + 1 }) }
  else r

/-- `ApiKeyRotator.record_failure` (`rotators.py` lines 45-48): silently does
nothing when `index` is not a key of the stats dict. -/
def ApiKeyRotator.record_failure (r : ApiKeyRotator) (index : Nat) : ApiKeyRotator :=
  if index < r.stats.length then
    { r with stats := statsUpdate r.stats index (fun s =>
        { s with failure_count := s.failure_count + 1,
                 total_requests := s.total_requests + 1 }) }
  else r

/-- The rotator state after `n` successive `get_next_key` calls (the `i`-th
call observing `time.time() = times i`); a failing call (empty key list)
leaves the state unchanged. -/
def selectN (r : ApiKeyRotator) (times : Nat → ℚ) : Nat → ApiKeyRotator
  | 0 => r
  | n + 1 =>
    match (selectN r times n).get_next_key (times n) with
    | Except.ok (_, r') => r'
    | Except.error _ => selectN r times n

/-! ### Association-list model of Python's insertion-ordered `dict` -/

/-- Python dict assignment `d[k] = v`: overwrite in place when the key is
present, append otherwise (insertion order preserved). -/
def alistSet {β : Type} (l : List (String × β)) (k : String) (v : β) :
    List (String × β) :=
  if l.any (fun p => p.1 == k) then l.map (fun p => if p.1 == k then (k, v) else p)
  else l ++ [(k, v)]

/-! ### `RateLimitTracker` (`src/python/gemback/monitoring/rate_limit.py`) -/

/-- `WindowStats` (`rate_limit.py` lines 5-9). -/
structure WindowStats where
  requests_in_last_minute : Nat
  requests_in_last_5_minutes : Nat
  average_rpm : ℚ
deriving DecidableEq

/-- `RateLimitStatus` (`rate_limit.py` lines 11-19). -/
structure RateLimitStatus where
  model : String
  current_rpm : Nat
  max_rpm : Nat
  utilization_percent : ℚ
  is_near_limit : Bool
  will_exceed_soon : Bool
  window_stats : WindowStats
deriving DecidableEq

/-- The tracker state (`rate_limit.py` lines 21-31). -/
structure RateLimitTracker where
  limits : List (String × Nat)
  request_timestamps : List (String × List ℚ)
deriving DecidableEq

/-- The hard-coded per-model RPM limits table (`rate_limit.py` lines 24-29). -/
def defaultLimits : List (String × Nat) :=
  [("gemini-2.5-flash", 15), ("gemini-2.5-flash-lite", 15),
   ("gemini-1.5-flash", 15), ("gemini-1.5-pro", 2)]

/-- `RateLimitTracker.__init__`. -/
def mkRateLimitTracker : RateLimitTracker := ⟨defaultLimits, []⟩

/-- `RateLimitTracker._cleanup` on one model's list: keep only timestamps
strictly newer than `now - 300` (`rate_limit.py` lines 42-47). -/
def cleanupTs (ts : List ℚ) (now : ℚ) : List ℚ :=
  ts.filter (fun t => decide (now - 300 < t))

/-- `RateLimitTracker.record_request` (`rate_limit.py` lines 33-40), with
`now` the observed `time.time()`. -/
def RateLimitTracker.record_request (tr : RateLimitTracker) (model : String)
    (now : ℚ) : RateLimitTracker :=
  let ts := (tr.request_timestamps.lookup model).getD []
  { tr with request_timestamps :=
      alistSet tr.request_timestamps model (cleanupTs (ts ++ [now]) now) }

/-- `RateLimitTracker.get_status` (`rate_limit.py` lines 49-73), with `now`
the observed `time.time()`.  Returns the snapshot and the tracker state after
the in-place `_cleanup` (performed only when the model has an entry). -/
def RateLimitTracker.get_status (tr : RateLimitTracker) (model : String)
    (now : ℚ) : RateLimitStatus × RateLimitTracker :=
  let cleaned := alistSet tr.request_timestamps model
    (cleanupTs ((tr.request_timestamps.lookup model).getD []) now)
  let tr1 :=
    if (tr.request_timestamps.lookup model).isSome then
      { tr with request_timestamps := cleaned }
    else tr
  let timestamps := (tr1.request_timestamps.lookup model).getD []
  let req_last_min := (timestamps.filter (fun t => decide (now - 60 < t))).length
  let max_rpm := (tr1.limits.lookup model).getD 15
  let utilization : ℚ :=
    if 0 < max_rpm then ((req_last_min : ℚ) / (max_rpm : ℚ)) * 100 else 0
  (⟨model, req_last_min, max_rpm, utilization,
    decide (80 ≤ utilization), decide (90 ≤ utilization),
    ⟨req_last_min, timestamps.length, (timestamps.length : ℚ) / 5⟩⟩, tr1)

/-- `RateLimitTracker.would_exceed_limit` (`rate_limit.py` lines 75-77). -/
def RateLimitTracker.would_exceed_limit (tr : RateLimitTracker) (model : String)
    (now : ℚ) : Bool × RateLimitTracker :=
  let pr := tr.get_status model now
  (decide (pr.1.max_rpm ≤ pr.1.current_rpm), pr.2)

/-- Ascending sort of a timestamp list (Python's `sorted`). -/
def sortQ (l : List ℚ) : List ℚ := l.mergeSort (fun a b => decide (a ≤ b))

/-- `RateLimitTracker.get_recommended_wait_time` (`rate_limit.py` lines
79-103).  The two internal `time.time()` calls are `now1` (inside the
`would_exceed_limit` call) and `now2` (line 90).  The source indexes
`valid_timestamps[0]`, which would raise `IndexError` if the window emptied
between the two clock reads; that branch is modelled as `none`. -/
def RateLimitTracker.get_recommended_wait_time (tr : RateLimitTracker)
    (model : String) (now1 now2 : ℚ) : Option ℤ × RateLimitTracker :=
  let pr := tr.would_exceed_limit model now1
  let tr1 := pr.2
  if !pr.1 then (some 0, tr1)
  else
    let timestamps := (tr1.request_timestamps.lookup model).getD []
    if timestamps.isEmpty then (some 0, tr1)
    else
      let valid_timestamps := sortQ (timestamps.filter (fun t => decide (now2 - 60 < t)))
      match valid_timestamps with
      | [] => (none, tr1)
      | oldest :: _ => (some ⌊(max 0 (oldest + 60 - now2)) * 1000⌋, tr1)

/-! ### `HealthMonitor` (`src/python/gemback/monitoring/health.py`) -/

/-- `ModelMetrics` (`health.py` lines 4-11). -/
structure ModelMetrics where
  total_requests : Nat
  successful_requests : Nat
  failed_requests : Nat
  p50_response_time : ℚ
  p95_response_time : ℚ
  p99_response_time : ℚ
deriving DecidableEq

/-- `ModelHealth` (`health.py` lines 13-21). -/
structure ModelHealth where
  model : String
  status : String
  success_rate : ℚ
  average_response_time : ℚ
  availability : ℚ
  consecutive_failures : Nat
  metrics : ModelMetrics
deriving DecidableEq

/-- One model's mutable record in `HealthMonitor.health_data`. -/
structure HealthData where
  response_times : List ℚ
  successes : Nat
  failures : Nat
  consecutive_failures : Nat
deriving DecidableEq

/-- The lazily-created empty record (`health.py` lines 34-40 / 57-59). -/
def emptyHealthData : HealthData := ⟨[], 0, 0, 0⟩

/-- The monitor state (`health.py` lines 23-31). -/
structure HealthMonitor where
  health_data : List (String × HealthData)
deriving DecidableEq

/-- `HealthMonitor.__init__`. -/
def mkHealthMonitor : HealthMonitor := ⟨[]⟩

/-- `HealthMonitor.record_request` (`health.py` lines 33-54).  The `error`
argument is accepted but unused, as in the source. -/
def HealthMonitor.record_request (mon : HealthMonitor) (model : String)
    (response_time_ms : ℚ) (success : Bool) (_error : Option String) :
    HealthMonitor :=
  let data := (mon.health_data.lookup model).getD emptyHealthData
  let rts := data.response_times ++ [response_time_ms]
  let rts1 := if 100 < rts.length then rts.drop 1 else rts
  let data1 :=
    if success then
      { data with response_times := rts1, successes := data.successes + 1,
                  consecutive_failures := 0 }
    else
      { data with response_times := rts1, failures := data.failures + 1,
                  consecutive_failures := data.consecutive_failures + 1 }
  ⟨alistSet mon.health_data model data1⟩

/-- The inner `get_percentile` of `HealthMonitor.get_health` (`health.py`
lines 68-71): nearest-rank on the ascending-sorted buffer,
`times[min(int(len(times) * p), len(times) - 1)]`, 0 on an empty buffer. -/
def get_percentile (times : List ℚ) (p : ℚ) : ℚ :=
  if times.isEmpty then 0
  else times.getD (min (⌊(times.length : ℚ) * p⌋).toNat (times.length - 1)) 0

/-- `HealthMonitor.get_health` (`health.py` lines 56-94). -/
def HealthMonitor.get_health (mon : HealthMonitor) (model : String) : ModelHealth :=
  let data := (mon.health_data.lookup model).getD emptyHealthData
  let total := data.successes + data.failures
  let success_rate : ℚ := if 0 < total then (data.successes : ℚ) / (total : ℚ) else 1
  let times := sortQ data.response_times
  let avg_time : ℚ := if times.isEmpty then 0 else times.sum / (times.length : ℚ)
  let status :=
    if 3 ≤ data.consecutive_failures ∨ success_rate < 4 / 5 then "unhealthy"
    else if success_rate < 19 / 20 ∨ (times ≠ [] ∧ 5000 < get_percentile times (19 / 20)) then
      "degraded"
    else "healthy"
  ⟨model, status, success_rate, avg_time, success_rate, data.consecutive_failures,
   ⟨total, data.successes, data.failures,
    get_percentile times (1 / 2), get_percentile times (19 / 20),
    get_percentile times (99 / 100)⟩⟩

/-! ### The orchestrator (`src/python/gemback/client.py`) -/

/-- `AttemptRecord` (`types.py` lines 23-28). -/
structure AttemptRecord where
  model : String
  error : String
  timestamp : ℚ
  status_code : Option Nat := none
deriving DecidableEq

/-- The mutable state a `GemBack` call threads: the three trackers (each
`none` when disabled) plus the clock tick counter (each `time.time()` call
reads `clock tick` and increments `tick`). -/
structure GenState where
  rotator : Option ApiKeyRotator
  single_key : Option String
  rate : Option RateLimitTracker
  health : Option HealthMonitor
  tick : Nat
deriving DecidableEq

/-- Outcome of `GemBack.generate`: a `GeminiResponse` (its `text` and `model`
fields) or a `GeminiBackError` (`message`, `code`, `attempts`, `status_code`,
`model`, per `types.py` lines 30-36), together with the final state. -/
inductive GenResult where
  | ok (text : String) (model : String) (st : GenState)
  | err (message : String) (code : String) (attempts : List AttemptRecord)
      (status_code : Option Nat) (model : Option String) (st : GenState)
deriving DecidableEq

/-- The raised error code, `none` on success. -/
def GenResult.codeOf : GenResult → Option String
  | .ok _ _ _ => none
  | .err _ c _ _ _ _ => some c

/-- The attempts carried by a raised error ([] on success). -/
def GenResult.attemptsOf : GenResult → List AttemptRecord
  | .ok _ _ _ => []
  | .err _ _ a _ _ _ => a

/-- The final tracker state. -/
def GenResult.stateOf : GenResult → GenState
  | .ok _ _ st => st
  | .err _ _ _ _ _ st => st

/-- The rate-limit prediction block (`client.py` lines 72-75): consult
`would_exceed_limit` and, when over the limit, `get_recommended_wait_time`
(logged only, never enforced).  Both consults prune the window in place. -/
def ratePredict (clock : Nat → ℚ) (m : String) (st : GenState) : GenState :=
  match st.rate with
  | none => st
  | some tr =>
    let now := clock st.tick
    let stA : GenState := { st with tick := st.tick + 1 }
    let pr := tr.would_exceed_limit m now
    let stB : GenState := { stA with rate := some pr.2 }
    if pr.1 then
      let nowA := clock stB.tick
      let nowB := clock (stB.tick + 1)
      let stC : GenState := { stB with tick := stB.tick + 2 }
      let pr2 := pr.2.get_recommended_wait_time m nowA nowB
      { stC with rate := some pr2.2 }
    else stB

/-- `self.rate_limit_tracker.record_request(current_model)` guarded by the
tracker being enabled (`client.py` lines 79-80, 172-173). -/
def rateRecord (clock : Nat → ℚ) (m : String) (st : GenState) : GenState :=
  match st.rate with
  | none => st
  | some tr =>
    { st with rate := some (tr.record_request m (clock st.tick)), tick := st.tick + 1 }

/-- `self.health_monitor.record_request(...)` guarded by the monitor being
enabled (`client.py` lines 86-87, 97-98, 190-191, 197-198). -/
def recordHealth (st : GenState) (model : String) (duration : ℚ)
    (success : Bool) (error : Option String) : GenState :=
  match st.health with
  | none => st
  | some hm => { st with health := some (hm.record_request model duration success error) }

/-- `if self.rotator and key_index is not None: self.rotator.record_success(...)`
(`client.py` lines 89-90). -/
def recordRotSuccess (st : GenState) (key_index : Option Nat) : GenState :=
  match st.rotator, key_index with
  | some r, some i => { st with rotator := some (r.record_success i) }
  | _, _ => st

/-- `if self.rotator and key_index is not None: self.rotator.record_failure(...)`
(`client.py` lines 112-113, 118-119). -/
def recordRotFailure (st : GenState) (key_index : Option Nat) : GenState :=
  match st.rotator, key_index with
  | some r, some i => { st with rotator := some (r.record_failure i) }
  | _, _ => st

/-- The model-fallback loop of `GemBack.generate` (`client.py` lines 68-121).
`beh m` is the external collaborator's behaviour for model `m` (indexed by
invocation number inside the retry loop); `key_index` is the credential index
selected once per call.  Per model: rate-limit prediction, `start_time`,
`record_request`, the inner retry loop; on success record health/rotator
success and return; on failure record health failure, append an
`AttemptRecord`, abort with `AUTH_ERROR` on status 401/403, otherwise advance
to the next model; when models run out, record one rotator failure and raise
`ALL_MODELS_FAILED`. -/
def genLoop (clock : Nat → ℚ) (max_retries : Nat) (retry_delay : ℚ)
    (beh : String → Nat → Except Err String) (key_index : Option Nat) :
    List String → GenState → List AttemptRecord → GenResult
  | [], st, attempts =>
    GenResult.err "All models failed" "ALL_MODELS_FAILED" attempts none none
      (recordRotFailure st key_index)
  | m :: rest, st, attempts =>
    let st1 := ratePredict clock m st
    let start_time := clock st1.tick
    let st2 : GenState := { st1 with tick := st1.tick + 1 }
    let st3 := rateRecord clock m st2
    let rr := generateWithRetry max_retries retry_delay (beh m)
    match rr.result with
    | Except.ok text =>
      let tEnd := clock st3.tick
      let st4 : GenState := { st3 with tick := st3.tick + 1 }
      let duration := (tEnd - start_time) * 1000
      let st5 := recordHealth st4 m duration true none
      GenResult.ok text m (recordRotSuccess st5 key_index)
    | Except.error e =>
      let tEnd := clock st3.tick
      let st4 : GenState := { st3 with tick := st3.tick + 1 }
      let duration := (tEnd - start_time) * 1000
      let st5 := recordHealth st4 m duration false (some e.msg)
      let sc := errStatus e
      let ts := clock st5.tick
      let st6 : GenState := { st5 with tick := st5.tick + 1 }
      let attempts1 := attempts ++ [⟨m, e.msg, ts, sc⟩]
      if sc = some 401 ∨ sc = some 403 then
        GenResult.err "Authentication failed" "AUTH_ERROR" attempts1 sc (some m)
          (recordRotFailure st6 key_index)
      else
        genLoop clock max_retries retry_delay beh key_index rest st6 attempts1

/-- `GemBack._get_api_key` (`client.py` lines 53-56): select via the rotator
(one `time.time()` for `last_used`) when present, else the single key with
index `None`. -/
def getApiKey (clock : Nat → ℚ) (st : GenState) :
    Except String ((Option String × Option Nat) × GenState) :=
  match st.rotator with
  | some r =>
    match r.get_next_key (clock st.tick) with
    | Except.ok (ki, r') =>
      Except.ok ((some ki.1, some ki.2),
        { st with rotator := some r', tick := st.tick + 1 })
    | Except.error msg => Except.error msg
  | none => Except.ok ((st.single_key, none), st)

/-- Resolution of `models_to_try` (`client.py` lines 59, 162): the explicit
model if truthy, else the configured fallback order. -/
def modelsToTry (modelArg : Option String) (fallback_order : List String) :
    List String :=
  match modelArg with
  | some m => if m == "" then fallback_order else [m]
  | none => fallback_order

/-- `GemBack.generate` (`client.py` lines 58-121): resolve the model list,
select a credential once, then run the fallback loop with an empty attempts
list.  The outer `Except` is the (unreachable for constructed clients)
`ValueError` of an empty rotator. -/
def generate (clock : Nat → ℚ) (max_retries : Nat) (retry_delay : ℚ)
    (beh : String → Nat → Except Err String) (fallback_order : List String)
    (modelArg : Option String) (st : GenState) : Except String GenResult :=
  match getApiKey clock st with
  | Except.ok (ki, st1) =>
    Except.ok (genLoop clock max_retries retry_delay beh ki.2
      (modelsToTry modelArg fallback_order) st1 [])
  | Except.error msg => Except.error msg

/-! ### Streaming generation (`GemBack.generate_stream`, lines 157-203) -/

/-- Behaviour of one model's stream: the text fragments it yields, then
either normal termination (`err = none`) or an error raised after the listed
fragments (`err = some e`; `chunks = []` covers an error raised before any
fragment, including one from opening the stream). -/
structure StreamBeh where
  chunks : List String
  err : Option Err
deriving DecidableEq

/-- Outcome of `GemBack.generate_stream`: the fragments yielded to the caller
and either a successful completion or the terminal `ALL_MODELS_FAILED`. -/
inductive StreamResult where
  | ok (yielded : List String) (model : String) (st : GenState)
  | errAll (yielded : List String) (message : String) (code : String)
      (attempts : List AttemptRecord) (st : GenState)
deriving DecidableEq

/-- The fragments the stream produced. -/
def StreamResult.yieldedOf : StreamResult → List String
  | .ok y _ _ => y
  | .errAll y _ _ _ _ => y

/-- The attempts carried by the terminal error ([] on success). -/
def StreamResult.attemptsOf : StreamResult → List AttemptRecord
  | .ok _ _ _ => []
  | .errAll _ _ _ a _ => a

/-- The final tracker state of a stream call. -/
def StreamResult.stateOf : StreamResult → GenState
  | .ok _ _ st => st
  | .errAll _ _ _ _ st => st

/-- The model-fallback loop of `GemBack.generate_stream` (`client.py` lines
169-203).  Per model: `record_request`, `start_time`, iterate the stream
(yielding every fragment); if the stream raises, record a health failure and
append an `AttemptRecord` (positional constructor: `status_code = None`) and
advance; if it ends normally having yielded, record success and return; if it
ends normally with zero fragments, silently advance (no record of any kind).
When models run out, raise `ALL_MODELS_FAILED` with the accumulated
attempts. -/
def streamLoop (clock : Nat → ℚ) (sbeh : String → StreamBeh) :
    List String → GenState → List String → List AttemptRecord → StreamResult
  | [], st, yielded, attempts =>
    StreamResult.errAll yielded "All models failed for stream" "ALL_MODELS_FAILED"
      attempts st
  | m :: rest, st, yielded, attempts =>
    let st1 := rateRecord clock m st
    let start_time := clock st1.tick
    let st2 : GenState := { st1 with tick := st1.tick + 1 }
    let sb := sbeh m
    let yielded1 := yielded ++ sb.chunks
    match sb.err with
    | some e =>
      let tEnd := clock st2.tick
      let st3 : GenState := { st2 with tick := st2.tick + 1 }
      let duration := (tEnd - start_time) * 1000
      let st4 := recordHealth st3 m duration false (some e.msg)
      let ts := clock st4.tick
      let st5 : GenState := { st4 with tick := st4.tick + 1 }
      streamLoop clock sbeh rest st5 yielded1 (attempts ++ [⟨m, e.msg, ts, none⟩])
    | none =>
      if sb.chunks.isEmpty then streamLoop clock sbeh rest st2 yielded1 attempts
      else
        let tEnd := clock st2.tick
        let st3 : GenState := { st2 with tick := st2.tick + 1 }
        let duration := (tEnd - start_time) * 1000
        StreamResult.ok yielded1 m (recordHealth st3 m duration true none)

/-- `GemBack.generate_stream` (`client.py` lines 157-203): resolve the model
list, select a credential (its index is never used: streaming records nothing
to the rotator), then run the stream fallback loop. -/
def generate_stream (clock : Nat → ℚ) (sbeh : String → StreamBeh)
    (fallback_order : List String) (modelArg : Option String) (st : GenState) :
    Except String StreamResult :=
  match getApiKey clock st with
  | Except.ok (_, st1) =>
    Except.ok (streamLoop clock sbeh (modelsToTry modelArg fallback_order) st1 [] [])
  | Except.error msg => Except.error msg

/-! ### Construction (`GemBack.__init__` and `GemBackClient.__init__`) -/

/-- Python truthiness of `self.options.api_key` (an optional string: `None`
and `""` are falsy). -/
def truthyStr : Option String → Bool
  | some s => !(s == "")
  | none => false

/-- Python truthiness of `self.options.api_keys` (an optional list: `None`
and `[]` are falsy). -/
def truthyList : Option (List String) → Bool
  | some l => !l.isEmpty
  | none => false

/-- The fields of a constructed `GemBack` relevant to this development. -/
structure InitClient where
  rotator : Option ApiKeyRotator
  single_key : Option String
  rate : Option RateLimitTracker
  health : Option HealthMonitor
deriving DecidableEq

/-- `GemBack.__init__` (`client.py` lines 15-51): raise `ValueError` when
neither `api_key` nor `api_keys` is truthy; resolve the key list
(`api_keys or ([api_key] if api_key else [])`); build an `ApiKeyRotator`
only when more than one key; `_single_key = api_keys[0] if api_keys else
None`; create the two monitors when monitoring is enabled. -/
def gemBackInit (api_key : Option String) (api_keys : Option (List String))
    (strategy : String) (enable_monitoring : Bool) : Except String InitClient :=
  if !truthyStr api_key && !truthyList api_keys then
    Except.error "Either api_key or api_keys must be provided"
  else
    let keys :=
      if truthyList api_keys then api_keys.getD []
      else if truthyStr api_key then [api_key.getD ""] else []
    let rotator := if 1 < keys.length then some (mkApiKeyRotator keys strategy) else none
    Except.ok ⟨rotator, keys.head?,
      if enable_monitoring then some mkRateLimitTracker else none,
      if enable_monitoring then some mkHealthMonitor else none⟩

/-- The initial `GenState` of a freshly constructed `GemBack`. -/
def InitClient.toState (c : InitClient) : GenState :=
  ⟨c.rotator, c.single_key, c.rate, c.health, 0⟩

/-- `GemBackClient.__init__` (`src/client.py` lines 40-44): raise
`ValueError` when the configured key list is falsy (empty); otherwise the
client starts with `_current_key_index = 0`. -/
def gemBackClientInit (api_keys : List String) : Except String (List String × Nat) :=
  if api_keys.isEmpty then Except.error "At least one API key is required"
  else Except.ok (api_keys, 0)

/-! ### Concrete inputs used by the C1 counterexample and witnesses -/

/-- A 401 error whose message mentions a connection problem. -/
def authConnErr : Err := ⟨none, some 401, "connection reset by peer"⟩

/-- A collaborator that always fails with `authConnErr` for every model. -/
def behAuthConn : String → Nat → Except Err String := fun _ _ => Except.error authConnErr

/-- A two-key client state with rotator, monitoring disabled. -/
def stTwoKeys : GenState :=
  ⟨some (mkApiKeyRotator ["k1", "k2"] "round-robin"), none, none, none, 0⟩

/-! ### Concrete inputs used by the C4 witness -/

/-- A two-key round-robin rotator. -/
def c4Rot : ApiKeyRotator := mkApiKeyRotator ["x", "y"] "round-robin"

/-- A client state holding `c4Rot`, monitoring disabled. -/
def c4St : GenState := ⟨some c4Rot, none, none, none, 0⟩

/-- A collaborator failing every invocation of every model with a 500. -/
def c4Beh : String → Nat → Except Err String :=
  fun _ _ => Except.error ⟨some 500, none, "boom"⟩

/-! ## Theorems -/

/-- Helper: the retry loop under a collaborator that fails every invocation
with a retryable, non-429 error: the budget is consumed one invocation at a
time, sleeping `d * 2 ^ attempt` before each retry, and the last error is
re-raised. -/
theorem retryAux_transient (d : ℚ) (invoke : Nat → Except Err String)
    (es : Nat → Err)
    (hfail : ∀ i, invoke i = Except.error (es i))
    (h429 : ∀ i, errStatus (es i) ≠ some 429)
    (hretry : ∀ i, is_retryable (es i) = true) :
    ∀ (budget attempt : Nat) (delays : List ℚ),
      retryAux d invoke budget attempt delays =
        ⟨Except.error (es (attempt + budget)), attempt + budget + 1,
         delays ++ (List.range budget).map (fun k => d * 2 ^ (attempt + k))⟩ := by
  intro budget
  induction budget with
  | zero =>
    intro attempt delays
    unfold retryAux
    rw [hfail]
    simp [h429 attempt, hretry attempt]
  | succ b ih =>
    intro attempt delays
    unfold retryAux
    rw [hfail]
    dsimp only
    rw [if_neg (h429 attempt), if_pos (hretry attempt)]
    rw [ih (attempt + 1) (delays ++ [d * 2 ^ attempt])]
    have h1 : attempt + 1 + b = attempt + (b + 1) := by omega
    rw [h1, List.append_assoc]
    congr 1
    rw [List.range_succ_eq_map, List.map_cons, List.map_map, List.singleton_append]
    simp only [Function.comp_apply, Nat.add_zero]
    have hfun : ((fun k : Nat => d * 2 ^ (attempt + k)) ∘ Nat.succ) =
        (fun k : Nat => d * 2 ^ (attempt + 1 + k)) := by
      funext k
      simp only [Function.comp_apply]
      have h2 : attempt + Nat.succ k = attempt + 1 + k := by omega
      rw [h2]
    rw [hfun]

/-- C2: inside the retry loop, an error with status code 429 is re-raised
immediately, whatever the remaining budget, with no further invocation of
that model and no backoff sleep; consequently, in the outer fallback loop, a
model whose first invocation fails with a 429 contributes one attempt record
and the loop advances to the next model of the order. -/
theorem c2_429_never_retried (d : ℚ) (invoke : Nat → Except Err String)
    (budget attempt : Nat) (delays : List ℚ) (e : Err)
    (hinv : invoke attempt = Except.error e) (h429 : errStatus e = some 429) :
    retryAux d invoke budget attempt delays = ⟨Except.error e, attempt + 1, delays⟩ ∧
    (∀ (clock : Nat → ℚ) (n : Nat) (beh : String → Nat → Except Err String)
       (ki : Option Nat) (m : String) (rest : List String) (st : GenState)
       (attempts : List AttemptRecord),
       beh m 0 = Except.error e →
       ∃ (st' : GenState) (ts : ℚ),
         genLoop clock n d beh ki (m :: rest) st attempts =
           genLoop clock n d beh ki rest st' (attempts ++ [⟨m, e.msg, ts, some 429⟩])) := by
  constructor
  · unfold retryAux
    rw [hinv]
    simp [h429]
  · intro clock n beh ki m rest st attempts hbeh
    have hr : generateWithRetry n d (beh m) = ⟨Except.error e, 1, []⟩ := by
      unfold generateWithRetry retryAux
      rw [hbeh]
      simp [h429]
    simp only [genLoop]
    rw [hr]
    simp only [h429]
    rw [if_neg (by simp)]
    exact ⟨_, _, rfl⟩

/-- C3: a model invocation that keeps failing with a transient error (as
classified by `is_retryable`, and not a 429) is invoked exactly
`max_retries + 1` times before the final error is re-raised, and the delay
slept before the `k`-th retry (1-indexed, list position `k-1`) is
`retry_delay * 2 ^ (k - 1)`. -/
theorem c3_transient_retry_backoff (n : Nat) (d : ℚ)
    (invoke : Nat → Except Err String) (es : Nat → Err)
    (hfail : ∀ i, invoke i = Except.error (es i))
    (h429 : ∀ i, errStatus (es i) ≠ some 429)
    (hretry : ∀ i, is_retryable (es i) = true) :
    generateWithRetry n d invoke =
      ⟨Except.error (es n), n + 1, (List.range n).map (fun k => d * 2 ^ k)⟩ := by
  unfold generateWithRetry
  rw [retryAux_transient d invoke es hfail h429 hretry n 0 []]
  simp

/-- Witness for C2 at a concrete input: budget 5, a 429-coded failure. -/
theorem c2_429_never_retried_witness :
    retryAux 1 (fun _ => Except.error ⟨some 429, none, "quota"⟩) 5 0 [] =
      ⟨Except.error ⟨some 429, none, "quota"⟩, 0 + 1, []⟩ :=
  (c2_429_never_retried 1 (fun _ => Except.error ⟨some 429, none, "quota"⟩) 5 0 []
    ⟨some 429, none, "quota"⟩ rfl (by decide)).1

/-- Witness for C3 at a concrete input: budget 2, base delay 1, a 500-coded
failure on every invocation: 3 invocations, delays 1 and 2. -/
theorem c3_transient_retry_backoff_witness :
    generateWithRetry 2 1 (fun _ => Except.error ⟨some 500, none, "server error"⟩) =
      ⟨Except.error ⟨some 500, none, "server error"⟩, 2 + 1,
       (List.range 2).map (fun k => 1 * 2 ^ k)⟩ :=
  c3_transient_retry_backoff 2 1 (fun _ => Except.error ⟨some 500, none, "server error"⟩)
    (fun _ => (⟨some 500, none, "server error"⟩ : Err)) (fun _ => rfl)
    (fun _ => show errStatus ⟨some 500, none, "server error"⟩ ≠ some 429 by decide)
    (fun _ => show is_retryable ⟨some 500, none, "server error"⟩ = true by decide)

/-- C9: `record_success`/`record_failure` with an index that is not a key of
the stats table leave the rotator state (all counters and the cursor)
entirely unchanged; the source guards with a membership test, so no
exception is raised. -/
theorem c9_record_out_of_range_noop (r : ApiKeyRotator) (i : Nat)
    (h : r.stats.length ≤ i) :
    r.record_success i = r ∧ r.record_failure i = r := by
  unfold ApiKeyRotator.record_success ApiKeyRotator.record_failure
  rw [if_neg (by omega), if_neg (by omega)]
  exact ⟨rfl, rfl⟩

/-- Witness for C9 at a concrete input: a two-key rotator and index 5. -/
theorem c9_record_out_of_range_noop_witness :
    (mkApiKeyRotator ["a", "b"] "round-robin").record_success 5 =
        mkApiKeyRotator ["a", "b"] "round-robin" ∧
      (mkApiKeyRotator ["a", "b"] "round-robin").record_failure 5 =
        mkApiKeyRotator ["a", "b"] "round-robin" :=
  c9_record_out_of_range_noop (mkApiKeyRotator ["a", "b"] "round-robin") 5 (by decide)

/-- Helper: after `n` round-robin selections from a freshly constructed
rotator over a non-empty key list, the key list and strategy are unchanged
and the shared cursor sits at `n % k`. -/
theorem selectN_round_robin_inv (keys : List String) (times : Nat → ℚ)
    (hk : keys ≠ []) (n : Nat) :
    (selectN (mkApiKeyRotator keys "round-robin") times n).api_keys = keys ∧
    (selectN (mkApiKeyRotator keys "round-robin") times n).strategy = "round-robin" ∧
    (selectN (mkApiKeyRotator keys "round-robin") times n).current_index =
      n % keys.length := by
  have hne : ¬(keys.isEmpty = true) := by
    simp [List.isEmpty_iff, hk]
  induction n with
  | zero => exact ⟨rfl, rfl, (Nat.zero_mod _).symm⟩
  | succ n ih =>
    obtain ⟨h1, h2, h3⟩ := ih
    simp only [selectN]
    unfold ApiKeyRotator.get_next_key
    rw [h1, h2]
    rw [if_neg hne, if_pos (by decide)]
    dsimp only
    refine ⟨rfl, rfl, ?_⟩
    rw [h3, Nat.mod_add_mod]

/-- C5: for the `i`-th call (0-indexed, no interleaving) to `get_next_key` on
a round-robin rotator over `k ≥ 1` credentials, the selected credential is
the one at index `i mod k` and the shared cursor afterwards is
`(i + 1) mod k`. -/
theorem c5_round_robin_selection (keys : List String) (times : Nat → ℚ) (i : Nat)
    (hk : keys ≠ []) :
    ∃ r' : ApiKeyRotator,
      (selectN (mkApiKeyRotator keys "round-robin") times i).get_next_key (times i) =
        Except.ok ((keys.getD (i % keys.length) "", i % keys.length), r') ∧
      r'.current_index = (i + 1) % keys.length := by
  have hne : ¬(keys.isEmpty = true) := by
    simp [List.isEmpty_iff, hk]
  obtain ⟨h1, h2, h3⟩ := selectN_round_robin_inv keys times hk i
  unfold ApiKeyRotator.get_next_key
  rw [h1, h2]
  rw [if_neg hne, if_pos (by decide)]
  dsimp only
  rw [h3]
  exact ⟨_, rfl, by dsimp only; rw [Nat.mod_add_mod]⟩

/-- Witness for C5 at a concrete input: three keys, fifth selection (i = 4)
returns the key at index 4 mod 3 = 1 and leaves the cursor at 5 mod 3 = 2. -/
theorem c5_round_robin_selection_witness :
    ∃ r' : ApiKeyRotator,
      (selectN (mkApiKeyRotator ["a", "b", "c"] "round-robin") (fun _ => 0) 4).get_next_key
          ((fun _ : Nat => (0 : ℚ)) 4) =
        Except.ok ((["a", "b", "c"].getD (4 % (["a", "b", "c"] : List String).length) "",
          4 % (["a", "b", "c"] : List String).length), r') ∧
      r'.current_index = (4 + 1) % (["a", "b", "c"] : List String).length :=
  c5_round_robin_selection ["a", "b", "c"] (fun _ => 0) 4 (by decide)

/-- C8: constructing the client with zero credentials (no truthy `api_key`
and no truthy `api_keys`) fails with the configuration `ValueError`; with at
least one credential the constructor does not raise it.  Both implementations
are covered: `GemBack.__init__` and `GemBackClient.__init__`. -/
theorem c8_construction_requires_credentials (api_key : Option String)
    (api_keys : Option (List String)) (strategy : String) (mon : Bool)
    (keys2 : List String) :
    ((truthyStr api_key = false ∧ truthyList api_keys = false) →
      gemBackInit api_key api_keys strategy mon =
        Except.error "Either api_key or api_keys must be provided") ∧
    ((truthyStr api_key = true ∨ truthyList api_keys = true) →
      ∃ c : InitClient, gemBackInit api_key api_keys strategy mon = Except.ok c) ∧
    (keys2 = [] →
      gemBackClientInit keys2 = Except.error "At least one API key is required") ∧
    (keys2 ≠ [] → ∃ p, gemBackClientInit keys2 = Except.ok p) := by
  refine ⟨?_, ?_, ?_, ?_⟩
  · rintro ⟨h1, h2⟩
    unfold gemBackInit
    rw [h1, h2]
    rfl
  · intro h
    unfold gemBackInit
    have hcond : (!truthyStr api_key && !truthyList api_keys) = false := by
      rcases h with h | h <;> rw [h] <;> simp
    rw [hcond]
    exact ⟨_, rfl⟩
  · intro h
    subst h
    rfl
  · intro h
    unfold gemBackClientInit
    rw [if_neg (by simp [List.isEmpty_iff, h])]
    exact ⟨_, rfl⟩

/-- Witness for C8 at concrete inputs: no credentials vs. one credential,
for both constructors. -/
theorem c8_construction_requires_credentials_witness :
    gemBackInit none none "round-robin" false =
        Except.error "Either api_key or api_keys must be provided" ∧
      (∃ c : InitClient, gemBackInit (some "k") none "round-robin" false = Except.ok c) ∧
      gemBackClientInit [] = Except.error "At least one API key is required" ∧
      (∃ p, gemBackClientInit ["k1"] = Except.ok p) :=
  ⟨(c8_construction_requires_credentials none none "round-robin" false []).1
      ⟨rfl, rfl⟩,
   (c8_construction_requires_credentials (some "k") none "round-robin" false []).2.1
      (Or.inl (by decide)),
   (c8_construction_requires_credentials none none "round-robin" false []).2.2.1 rfl,
   (c8_construction_requires_credentials none none "round-robin" false ["k1"]).2.2.2
      (by decide)⟩

/-- Helper: looking up `k` after the dict assignment `d[k] = v` yields `v`. -/
theorem alistSet_lookup_self {β : Type} (l : List (String × β)) (k : String) (v : β) :
    (alistSet l k v).lookup k = some v := by
  unfold alistSet
  by_cases h : l.any (fun p => p.1 == k) = true
  · rw [if_pos h]
    induction l with
    | nil => simp at h
    | cons p l ih =>
      by_cases hp : p.1 = k
      · have hbeq : (p.1 == k) = true := by simp [hp]
        simp only [List.map_cons, hbeq]
        simp [List.lookup]
      · have hpb : (p.1 == k) = false := beq_eq_false_iff_ne.mpr hp
        have hkb : (k == p.1) = false := beq_eq_false_iff_ne.mpr (Ne.symm hp)
        simp only [List.any_cons, hpb, Bool.false_or] at h
        have ih2 := ih h
        revert ih2
        simp only [List.map_cons, hpb]
        simp [List.lookup, hkb]
  · rw [if_neg h]
    induction l with
    | nil => simp [List.lookup]
    | cons p l ih =>
      simp only [List.any_cons, Bool.or_eq_true, not_or] at h
      have hp : p.1 ≠ k := by
        intro hkp
        exact h.1 (by simp [hkp])
      have hkb : (k == p.1) = false := beq_eq_false_iff_ne.mpr (Ne.symm hp)
      have ih' := ih (by simp [h.2])
      simp [List.lookup, hkb, ih']

/-- Helper: recording a failed request bumps the model's stored
consecutive-failure counter by exactly one. -/
theorem record_request_failure_cf (mon : HealthMonitor) (model : String)
    (t : ℚ) (err : Option String) :
    ∃ d : HealthData,
      ((mon.record_request model t false err).health_data.lookup model) = some d ∧
      d.consecutive_failures =
        ((mon.health_data.lookup model).getD emptyHealthData).consecutive_failures + 1 := by
  unfold HealthMonitor.record_request
  dsimp only
  refine ⟨_, alistSet_lookup_self _ _ _, ?_⟩
  simp

/-- Helper: `get_health` reports `unhealthy` whenever the stored
consecutive-failure count is at least 3. -/
theorem get_health_unhealthy_of_cf (mon : HealthMonitor) (model : String)
    (h : 3 ≤ ((mon.health_data.lookup model).getD emptyHealthData).consecutive_failures) :
    (mon.get_health model).status = "unhealthy" := by
  unfold HealthMonitor.get_health
  dsimp only
  rw [if_pos (Or.inl h)]

/-- Helper: classification of the three-way status expression computed by
`get_health`, for arbitrary counter/rate/percentile values, given only that
the percentile of an empty buffer is 0. -/
theorem status_classify (cf : Nat) (rate pct : ℚ) (times : List ℚ) (status : String)
    (hst : status = if 3 ≤ cf ∨ rate < 4 / 5 then "unhealthy"
      else if rate < 19 / 20 ∨ (times ≠ [] ∧ 5000 < pct) then "degraded" else "healthy")
    (hpct : times = [] → pct = 0) :
    (status = "unhealthy" ↔ 3 ≤ cf ∨ rate < 4 / 5) ∧
    (status = "degraded" ↔
      ¬(3 ≤ cf ∨ rate < 4 / 5) ∧ (rate < 19 / 20 ∨ 5000 < pct)) ∧
    (status = "healthy" ↔
      ¬(3 ≤ cf ∨ rate < 4 / 5) ∧ ¬(rate < 19 / 20 ∨ 5000 < pct)) := by
  have hor : (rate < 19 / 20 ∨ (times ≠ [] ∧ 5000 < pct)) ↔
      (rate < 19 / 20 ∨ 5000 < pct) := by
    constructor
    · rintro (h | ⟨_, h⟩)
      · exact Or.inl h
      · exact Or.inr h
    · rintro (h | h)
      · exact Or.inl h
      · by_cases ht : times = []
        · rw [hpct ht] at h
          norm_num at h
        · exact Or.inr ⟨ht, h⟩
  subst hst
  by_cases h1 : 3 ≤ cf ∨ rate < 4 / 5
  · rw [if_pos h1]
    refine ⟨by simp [h1], ?_, ?_⟩
    · simp [h1, show ("unhealthy" : String) ≠ "degraded" from by decide]
    · simp [h1, show ("unhealthy" : String) ≠ "healthy" from by decide]
  · rw [if_neg h1]
    by_cases h2 : rate < 19 / 20 ∨ (times ≠ [] ∧ 5000 < pct)
    · rw [if_pos h2]
      refine ⟨?_, ?_, ?_⟩
      · simp [h1, show ("degraded" : String) ≠ "unhealthy" from by decide]
      · simp [h1, hor.mp h2]
      · simp [hor.mp h2, show ("degraded" : String) ≠ "healthy" from by decide]
    · rw [if_neg h2]
      refine ⟨?_, ?_, ?_⟩
      · simp [h1, show ("healthy" : String) ≠ "unhealthy" from by decide]
      · constructor
        · intro h
          exact absurd h (by decide)
        · rintro ⟨-, h⟩
          exact absurd (hor.mpr h) h2
      · constructor
        · intro _
          exact ⟨h1, fun h => h2 (hor.mpr h)⟩
        · intro _
          rfl

/-- C7: the status reported by `get_health` is `unhealthy` iff
`consecutiveFailures ≥ 3` or `successRate < 0.8`; otherwise `degraded` iff
`successRate < 0.95` or the reported p95 latency exceeds 5000 ms; otherwise
`healthy`.  In particular (fourth conjunct) three consecutive recorded
failures force `unhealthy` regardless of the prior history. -/
theorem c7_health_status_rule (mon : HealthMonitor) (model : String) :
    ((mon.get_health model).status = "unhealthy" ↔
      3 ≤ (mon.get_health model).consecutive_failures ∨
        (mon.get_health model).success_rate < 4 / 5) ∧
    ((mon.get_health model).status = "degraded" ↔
      ¬(3 ≤ (mon.get_health model).consecutive_failures ∨
          (mon.get_health model).success_rate < 4 / 5) ∧
        ((mon.get_health model).success_rate < 19 / 20 ∨
          5000 < (mon.get_health model).metrics.p95_response_time)) ∧
    ((mon.get_health model).status = "healthy" ↔
      ¬(3 ≤ (mon.get_health model).consecutive_failures ∨
          (mon.get_health model).success_rate < 4 / 5) ∧
        ¬((mon.get_health model).success_rate < 19 / 20 ∨
          5000 < (mon.get_health model).metrics.p95_response_time)) ∧
    (∀ (t1 t2 t3 : ℚ) (e1 e2 e3 : Option String),
      ((((mon.record_request model t1 false e1).record_request model t2 false
          e2).record_request model t3 false e3).get_health model).status =
        "unhealthy") := by
  have hpct : sortQ ((mon.health_data.lookup model).getD
      emptyHealthData).response_times = [] →
      get_percentile (sortQ ((mon.health_data.lookup model).getD
        emptyHealthData).response_times) (19 / 20) = 0 := by
    intro ht
    rw [ht]
    rfl
  have hcl := status_classify
    ((mon.health_data.lookup model).getD emptyHealthData).consecutive_failures
    ((mon.get_health model).success_rate)
    ((mon.get_health model).metrics.p95_response_time)
    (sortQ ((mon.health_data.lookup model).getD emptyHealthData).response_times)
    ((mon.get_health model).status) rfl hpct
  refine ⟨hcl.1, hcl.2.1, hcl.2.2, ?_⟩
  intro t1 t2 t3 e1 e2 e3
  apply get_health_unhealthy_of_cf
  obtain ⟨d1, hl1, hc1⟩ := record_request_failure_cf mon model t1 e1
  obtain ⟨d2, hl2, hc2⟩ :=
    record_request_failure_cf (mon.record_request model t1 false e1) model t2 e2
  obtain ⟨d3, hl3, hc3⟩ :=
    record_request_failure_cf
      ((mon.record_request model t1 false e1).record_request model t2 false e2)
      model t3 e3
  rw [hl3]
  rw [hl2] at hc3
  rw [hl1] at hc2
  simp only [Option.getD_some] at hc2 hc3 ⊢
  omega

/-- Witness for C7 at a concrete input: the empty monitor reports `healthy`
for an unknown model, matching the rule (success rate 1, no failures). -/
theorem c7_health_status_rule_witness :
    (mkHealthMonitor.get_health "m").status = "healthy" ↔
      ¬(3 ≤ (mkHealthMonitor.get_health "m").consecutive_failures ∨
          (mkHealthMonitor.get_health "m").success_rate < 4 / 5) ∧
        ¬((mkHealthMonitor.get_health "m").success_rate < 19 / 20 ∨
          5000 < (mkHealthMonitor.get_health "m").metrics.p95_response_time) :=
  (c7_health_status_rule mkHealthMonitor "m").2.2.1

/-- Helper: every configured per-minute limit, including the default for
unknown models, is positive. -/
theorem defaultLimits_lookup_pos (s : String) :
    0 < (defaultLimits.lookup s).getD 15 := by
  simp only [defaultLimits, List.lookup_cons]
  repeat' split
  all_goals simp

/-- Helper: the 60-second filter ignores the 5-minute cleanup (every
timestamp in the last 60 seconds is also within the last 300). -/
theorem filter60_cleanup (ts : List ℚ) (now : ℚ) :
    (cleanupTs ts now).filter (fun t => decide (now - 60 < t)) =
      ts.filter (fun t => decide (now - 60 < t)) := by
  unfold cleanupTs
  rw [List.filter_filter]
  apply List.filter_congr
  intro t _
  by_cases h : now - 60 < t
  · have h2 : now - 300 < t := by linarith
    simp [h, h2]
  · simp [h]

/-- Helper: `sortQ` sorts ascendingly. -/
theorem sortQ_sorted_pairwise (l : List ℚ) :
    (sortQ l).Pairwise (fun a b : ℚ => a ≤ b) := by
  have h : (l.mergeSort (fun a b : ℚ => decide (a ≤ b))).Pairwise
      (fun a b : ℚ => (decide (a ≤ b)) = true) :=
    List.sorted_mergeSort
      (by
        intro a b c hab hbc
        simp only [decide_eq_true_eq] at hab hbc ⊢
        linarith)
      (by
        intro a b
        rcases le_total a b with hab | hab <;> simp [hab])
      l
  exact h.imp (by intro a b hab; simpa using hab)

/-- Helper: the head of `sortQ l` is a member of `l` and a lower bound of
`l`. -/
theorem sortQ_head_min (l : List ℚ) (x : ℚ) (rest : List ℚ)
    (h : sortQ l = x :: rest) : x ∈ l ∧ ∀ t ∈ l, x ≤ t := by
  have hmem : x ∈ l := by
    have hx : x ∈ sortQ l := by
      rw [h]
      exact List.mem_cons_self x rest
    unfold sortQ at hx
    exact List.mem_mergeSort.mp hx
  refine ⟨hmem, ?_⟩
  intro t ht
  have ht2 : t ∈ x :: rest := by
    rw [← h]
    unfold sortQ
    exact List.mem_mergeSort.mpr ht
  rcases List.mem_cons.mp ht2 with rfl | htr
  · exact le_refl t
  · have hp := sortQ_sorted_pairwise l
    rw [h] at hp
    exact (List.pairwise_cons.mp hp).1 t htr

/-- Helper: projections of `get_status` when the model has a recorded
window. -/
theorem get_status_proj_some (tr : RateLimitTracker) (model : String)
    (now : ℚ) (ts : List ℚ)
    (hlook : tr.request_timestamps.lookup model = some ts) :
    (tr.get_status model now).1.current_rpm =
        (ts.filter (fun t => decide (now - 60 < t))).length ∧
    (tr.get_status model now).1.max_rpm = (tr.limits.lookup model).getD 15 ∧
    (tr.get_status model now).2.request_timestamps =
        alistSet tr.request_timestamps model (cleanupTs ts now) ∧
    (tr.get_status model now).2.limits = tr.limits := by
  unfold RateLimitTracker.get_status
  rw [hlook]
  dsimp only [Option.isSome_some, Option.getD_some]
  rw [if_pos rfl]
  dsimp only
  rw [alistSet_lookup_self]
  dsimp only [Option.getD_some]
  exact ⟨congrArg List.length (filter60_cleanup ts now), rfl, rfl, rfl⟩

/-- Helper: projections of `get_status` when the model has no recorded
window. -/
theorem get_status_proj_none (tr : RateLimitTracker) (model : String)
    (now : ℚ)
    (hlook : tr.request_timestamps.lookup model = none) :
    (tr.get_status model now).1.current_rpm = 0 ∧
    (tr.get_status model now).1.max_rpm = (tr.limits.lookup model).getD 15 ∧
    (tr.get_status model now).2 = tr := by
  unfold RateLimitTracker.get_status
  rw [hlook]
  dsimp only [Option.isSome_none, Option.getD_none]
  rw [if_neg (by simp)]
  rw [hlook]
  dsimp only [Option.getD_none]
  exact ⟨rfl, rfl, rfl⟩

/-- C6: `get_recommended_wait_time` (both internal `time.time()` reads
observing the same instant `now`, limits as constructed) returns 0 when the
model is not at or over its per-minute limit; when it is over, it returns
`⌊max 0 (oldest + 60 − now) · 1000⌋` milliseconds, where `oldest` is the
earliest recorded timestamp strictly within the trailing 60 seconds; and
every returned value is an integer ≥ 0. -/
theorem c6_recommended_wait (tr : RateLimitTracker) (model : String) (now : ℚ)
    (hlim : tr.limits = defaultLimits) :
    ((tr.would_exceed_limit model now).1 = false →
      (tr.get_recommended_wait_time model now now).1 = some 0) ∧
    ((tr.would_exceed_limit model now).1 = true →
      ∃ oldest : ℚ,
        oldest ∈ (tr.request_timestamps.lookup model).getD [] ∧
        now - 60 < oldest ∧
        (∀ t ∈ (tr.request_timestamps.lookup model).getD [],
          now - 60 < t → oldest ≤ t) ∧
        (tr.get_recommended_wait_time model now now).1 =
          some ⌊(max 0 (oldest + 60 - now)) * 1000⌋) ∧
    (∀ r : ℤ, (tr.get_recommended_wait_time model now now).1 = some r → 0 ≤ r) := by
  have hM : 0 < (tr.limits.lookup model).getD 15 := by
    rw [hlim]
    exact defaultLimits_lookup_pos model
  cases hlook : tr.request_timestamps.lookup model with
  | none =>
    obtain ⟨hc, hm, ht2⟩ := get_status_proj_none tr model now hlook
    have hwl : (tr.would_exceed_limit model now).1 = false := by
      unfold RateLimitTracker.would_exceed_limit
      dsimp only
      rw [hc, hm]
      simp only [decide_eq_false_iff_not]
      omega
    have hres : (tr.get_recommended_wait_time model now now).1 = some 0 := by
      unfold RateLimitTracker.get_recommended_wait_time
      dsimp only
      rw [hwl]
      rfl
    refine ⟨fun _ => hres, ?_, ?_⟩
    · intro htr
      rw [hwl] at htr
      simp at htr
    · intro r hr
      rw [hres] at hr
      injection hr with h
      omega
  | some ts =>
    obtain ⟨hc, hm, hrt2, hl2⟩ := get_status_proj_some tr model now ts hlook
    have htr1look : (tr.would_exceed_limit model now).2.request_timestamps.lookup model
        = some (cleanupTs ts now) := by
      unfold RateLimitTracker.would_exceed_limit
      dsimp only
      rw [hrt2]
      exact alistSet_lookup_self _ _ _
    have hwl_eq : (tr.would_exceed_limit model now).1 =
        decide ((tr.limits.lookup model).getD 15 ≤
          (ts.filter (fun t => decide (now - 60 < t))).length) := by
      unfold RateLimitTracker.would_exceed_limit
      dsimp only
      rw [hc, hm]
    cases hwl : (tr.would_exceed_limit model now).1 with
    | false =>
      have hres : (tr.get_recommended_wait_time model now now).1 = some 0 := by
        unfold RateLimitTracker.get_recommended_wait_time
        dsimp only
        rw [hwl]
        rfl
      refine ⟨fun _ => hres, ?_, ?_⟩
      · intro htr
        exact absurd htr Bool.false_ne_true
      · intro r hr
        rw [hres] at hr
        injection hr with h
        omega
    | true =>
      have hle : (tr.limits.lookup model).getD 15 ≤
          (ts.filter (fun t => decide (now - 60 < t))).length := by
        rw [hwl_eq] at hwl
        exact of_decide_eq_true hwl
      have hfilter_pos : 0 < (ts.filter (fun t => decide (now - 60 < t))).length :=
        lt_of_lt_of_le hM hle
      have hfilter_ne : ts.filter (fun t => decide (now - 60 < t)) ≠ [] := by
        intro h0
        rw [h0] at hfilter_pos
        simp at hfilter_pos
      have hclean_ne : ¬((cleanupTs ts now).isEmpty = true) := by
        simp only [List.isEmpty_iff]
        intro h0
        apply hfilter_ne
        rw [← filter60_cleanup ts now, h0]
        rfl
      have hsort_len : (sortQ (ts.filter (fun t => decide (now - 60 < t)))).length =
          (ts.filter (fun t => decide (now - 60 < t))).length := by
        unfold sortQ
        exact List.length_mergeSort _
      cases hv : sortQ (ts.filter (fun t => decide (now - 60 < t))) with
      | nil =>
        exfalso
        rw [hv] at hsort_len
        rw [← hsort_len] at hfilter_pos
        simp at hfilter_pos
      | cons oldest rest =>
        obtain ⟨hmem, hmin⟩ :=
          sortQ_head_min (ts.filter (fun t => decide (now - 60 < t))) oldest rest hv
        obtain ⟨hmem_ts, hdec⟩ := List.mem_filter.mp hmem
        have hold60 : now - 60 < oldest := of_decide_eq_true hdec
        have hres : (tr.get_recommended_wait_time model now now).1 =
            some ⌊(max 0 (oldest + 60 - now)) * 1000⌋ := by
          unfold RateLimitTracker.get_recommended_wait_time
          dsimp only
          rw [hwl]
          simp only [Bool.not_true, Bool.false_eq_true, if_false]
          rw [htr1look]
          dsimp only [Option.getD_some]
          rw [if_neg hclean_ne]
          rw [filter60_cleanup, hv]
        refine ⟨?_, ?_, ?_⟩
        · intro htr
          simp at htr
        · intro _
          refine ⟨oldest, ?_, hold60, ?_, hres⟩
          · simpa using hmem_ts
          · intro t ht h60
            simp only [Option.getD_some] at ht
            exact hmin t (List.mem_filter.mpr ⟨ht, decide_eq_true h60⟩)
        · intro r hr
          rw [hres] at hr
          injection hr with h
          rw [← h]
          apply Int.floor_nonneg.mpr
          apply mul_nonneg (le_max_left 0 _)
          norm_num

/-- Witness for C6 at a concrete input: the fresh tracker (no recorded
requests) is under every limit, so the recommended wait is 0. -/
theorem c6_recommended_wait_witness :
    (mkRateLimitTracker.get_recommended_wait_time "gemini-2.5-flash" 0 0).1 =
      some 0 :=
  (c6_recommended_wait mkRateLimitTracker "gemini-2.5-flash" 0 rfl).1 (by decide)

/-- Helper: the rate-limit prediction block never touches the rotator. -/
theorem ratePredict_rotator_eq (clock : Nat → ℚ) (m : String) (st : GenState) :
    (ratePredict clock m st).rotator = st.rotator := by
  unfold ratePredict
  cases h : st.rate with
  | none => rfl
  | some tr =>
    dsimp only
    by_cases hw : (tr.would_exceed_limit m (clock st.tick)).1 = true
    · rw [if_pos hw]
    · rw [if_neg hw]

/-- Helper: the rate-limit prediction block never touches the health
monitor. -/
theorem ratePredict_health_eq (clock : Nat → ℚ) (m : String) (st : GenState) :
    (ratePredict clock m st).health = st.health := by
  unfold ratePredict
  cases h : st.rate with
  | none => rfl
  | some tr =>
    dsimp only
    by_cases hw : (tr.would_exceed_limit m (clock st.tick)).1 = true
    · rw [if_pos hw]
    · rw [if_neg hw]

/-- Helper: recording to the rate tracker never touches the rotator. -/
theorem rateRecord_rotator_eq (clock : Nat → ℚ) (m : String) (st : GenState) :
    (rateRecord clock m st).rotator = st.rotator := by
  unfold rateRecord
  cases h : st.rate <;> rfl

/-- Helper: recording to the rate tracker never touches the health
monitor. -/
theorem rateRecord_health_eq (clock : Nat → ℚ) (m : String) (st : GenState) :
    (rateRecord clock m st).health = st.health := by
  unfold rateRecord
  cases h : st.rate <;> rfl

/-- Helper: recording to the health monitor never touches the rotator. -/
theorem recordHealth_rotator_eq (st : GenState) (m : String) (dur : ℚ)
    (s : Bool) (err : Option String) :
    (recordHealth st m dur s err).rotator = st.rotator := by
  unfold recordHealth
  cases h : st.health <;> rfl

/-- Helper: `recordRotFailure` with a present rotator and index applies
`record_failure`. -/
theorem recordRotFailure_rotator_some (st : GenState) (i : Nat)
    (r : ApiKeyRotator) (h : st.rotator = some r) :
    (recordRotFailure st (some i)).rotator = some (r.record_failure i) := by
  unfold recordRotFailure
  rw [h]

/-- Helper: one step of the generate fallback loop on a model whose
retry-wrapped invocation fails with a non-auth error: one `AttemptRecord` is
appended and the loop advances, the rotator untouched. -/
theorem genLoop_step_fail (clock : Nat → ℚ) (n : Nat) (d : ℚ)
    (beh : String → Nat → Except Err String) (ki : Option Nat) (m : String)
    (rest : List String) (st : GenState) (attempts : List AttemptRecord)
    (e : Err)
    (hres : (generateWithRetry n d (beh m)).result = Except.error e)
    (hna : ¬(errStatus e = some 401 ∨ errStatus e = some 403)) :
    ∃ (st' : GenState) (ts : ℚ),
      genLoop clock n d beh ki (m :: rest) st attempts =
        genLoop clock n d beh ki rest st' (attempts ++ [⟨m, e.msg, ts, errStatus e⟩]) ∧
      st'.rotator = st.rotator := by
  simp only [genLoop]
  rw [hres]
  dsimp only
  rw [if_neg hna]
  refine ⟨_, _, rfl, ?_⟩
  dsimp only
  rw [recordHealth_rotator_eq]
  dsimp only
  rw [rateRecord_rotator_eq]
  dsimp only
  rw [ratePredict_rotator_eq]

/-- Helper: the generate fallback loop over models that all fail with
non-auth errors ends in `ALL_MODELS_FAILED`, with exactly one appended
attempt per model in order, and exactly one rotator failure recorded at the
very end. -/
theorem genLoop_all_fail (clock : Nat → ℚ) (n : Nat) (d : ℚ)
    (beh : String → Nat → Except Err String) (ki : Option Nat) :
    ∀ (models : List String),
      (∀ m ∈ models, ∃ e : Err,
        (generateWithRetry n d (beh m)).result = Except.error e ∧
        ¬(errStatus e = some 401 ∨ errStatus e = some 403)) →
      ∀ (st : GenState) (attempts : List AttemptRecord),
      ∃ (st' : GenState) (recs : List AttemptRecord),
        genLoop clock n d beh ki models st attempts =
          GenResult.err "All models failed" "ALL_MODELS_FAILED"
            (attempts ++ recs) none none (recordRotFailure st' ki) ∧
        recs.map AttemptRecord.model = models ∧
        st'.rotator = st.rotator := by
  intro models
  induction models with
  | nil =>
    intro _ st attempts
    exact ⟨st, [], by simp [genLoop], rfl, rfl⟩
  | cons m rest ih =>
    intro hfail st attempts
    obtain ⟨e, hres, hna⟩ := hfail m (List.mem_cons_self m rest)
    obtain ⟨st1, ts, heq, hrot1⟩ :=
      genLoop_step_fail clock n d beh ki m rest st attempts e hres hna
    obtain ⟨st', recs, heq2, hmap, hrot2⟩ :=
      ih (fun m' hm' => hfail m' (List.mem_cons_of_mem m hm')) st1
        (attempts ++ [⟨m, e.msg, ts, errStatus e⟩])
    refine ⟨st', ⟨m, e.msg, ts, errStatus e⟩ :: recs, ?_, ?_, hrot2.trans hrot1⟩
    · rw [heq, heq2]
      congr 1
      rw [List.append_assoc]
      rfl
    · simp [hmap]

/-- Helper: updating position `i` of a stats list leaves its length
unchanged. -/
theorem statsUpdate_length (l : List KeyStats) (i : Nat) (f : KeyStats → KeyStats) :
    (statsUpdate l i f).length = l.length := by
  unfold statsUpdate
  exact List.length_set l i _

/-- Helper: reading back position `i` after updating it (`i` in range). -/
theorem statsUpdate_getD_self (l : List KeyStats) (i : Nat)
    (f : KeyStats → KeyStats) (h : i < l.length) :
    (statsUpdate l i f).getD i defaultKeyStats = f (l.getD i defaultKeyStats) := by
  unfold statsUpdate
  rw [List.getD_eq_getElem?_getD, List.getElem?_set_self (by omega), List.getD_eq_getElem?_getD]
  rw [List.getElem?_eq_getElem h]
  rfl

/-- Helper: `record_failure` at an in-range index bumps that credential's
failure count by one and leaves its success count alone. -/
theorem record_failure_getD (r : ApiKeyRotator) (i : Nat) (h : i < r.stats.length) :
    ((r.record_failure i).stats.getD i defaultKeyStats).failure_count =
      (r.stats.getD i defaultKeyStats).failure_count + 1 ∧
    ((r.record_failure i).stats.getD i defaultKeyStats).success_count =
      (r.stats.getD i defaultKeyStats).success_count := by
  unfold ApiKeyRotator.record_failure
  rw [if_pos h]
  dsimp only
  rw [statsUpdate_getD_self _ _ _ h]
  exact ⟨rfl, rfl⟩

/-- Helper: credential selection on a round-robin rotator: the index is the
current cursor, the cursor advances modulo the key count, and only
`last_used` changes in the stats. -/
theorem getApiKey_round_robin (clock : Nat → ℚ) (st : GenState)
    (r : ApiKeyRotator) (hrot : st.rotator = some r) (hkeys : r.api_keys ≠ [])
    (hstrat : r.strategy = "round-robin") :
    ∃ (k : String) (r2 : ApiKeyRotator),
      getApiKey clock st = Except.ok ((some k, some r.current_index),
        { st with rotator := some r2, tick := st.tick + 1 }) ∧
      r2.stats = statsUpdate r.stats r.current_index
        (fun s => { s with last_used := clock st.tick }) ∧
      r2.api_keys = r.api_keys := by
  unfold getApiKey
  rw [hrot]
  dsimp only
  unfold ApiKeyRotator.get_next_key
  rw [if_neg (by simp [List.isEmpty_iff, hkeys]), hstrat]
  rw [if_pos (by decide)]
  dsimp only
  exact ⟨_, _, rfl, rfl, rfl⟩

/-- C4: a `generate` call in which every model of the (non-empty) fallback
order fails with a non-auth error raises `ALL_MODELS_FAILED` carrying exactly
one `AttemptRecord` per model tried, in the original order, and records
exactly one failure to the credential rotator (the selected credential's
failure count grows by one; its success count is untouched). -/
theorem c4_all_models_failed (clock : Nat → ℚ) (n : Nat) (d : ℚ)
    (beh : String → Nat → Except Err String) (fallback : List String)
    (st : GenState) (r : ApiKeyRotator)
    (hrot : st.rotator = some r) (hkeys : r.api_keys ≠ [])
    (hstrat : r.strategy = "round-robin")
    (hidx : r.current_index < r.stats.length)
    (hne : fallback ≠ [])
    (hfail : ∀ m ∈ fallback, ∃ e : Err,
      (generateWithRetry n d (beh m)).result = Except.error e ∧
      ¬(errStatus e = some 401 ∨ errStatus e = some 403)) :
    ∃ res : GenResult,
      generate clock n d beh fallback none st = Except.ok res ∧
      res.codeOf = some "ALL_MODELS_FAILED" ∧
      res.attemptsOf.map AttemptRecord.model = fallback ∧
      ∃ r' : ApiKeyRotator,
        res.stateOf.rotator = some r' ∧
        (r'.stats.getD r.current_index defaultKeyStats).failure_count =
          (r.stats.getD r.current_index defaultKeyStats).failure_count + 1 ∧
        (r'.stats.getD r.current_index defaultKeyStats).success_count =
          (r.stats.getD r.current_index defaultKeyStats).success_count := by
  obtain ⟨k, r2, hapi, hr2s, hr2k⟩ := getApiKey_round_robin clock st r hrot hkeys hstrat
  obtain ⟨st', recs, heq, hmap, hrotp⟩ :=
    genLoop_all_fail clock n d beh (some r.current_index) fallback hfail
      { st with rotator := some r2, tick := st.tick + 1 } []
  have hidx2 : r.current_index < r2.stats.length := by
    rw [hr2s, statsUpdate_length]
    exact hidx
  have hlast_fc : (r2.stats.getD r.current_index defaultKeyStats).failure_count =
      (r.stats.getD r.current_index defaultKeyStats).failure_count := by
    rw [hr2s, statsUpdate_getD_self _ _ _ hidx]
  have hlast_sc : (r2.stats.getD r.current_index defaultKeyStats).success_count =
      (r.stats.getD r.current_index defaultKeyStats).success_count := by
    rw [hr2s, statsUpdate_getD_self _ _ _ hidx]
  refine ⟨GenResult.err "All models failed" "ALL_MODELS_FAILED" ([] ++ recs)
      none none (recordRotFailure st' (some r.current_index)), ?_, rfl, ?_, ?_⟩
  · unfold generate
    rw [hapi]
    dsimp only
    simp only [modelsToTry]
    rw [heq]
  · simpa using hmap
  · refine ⟨r2.record_failure r.current_index, ?_, ?_, ?_⟩
    · exact recordRotFailure_rotator_some st' r.current_index r2 (by rw [hrotp])
    · rw [(record_failure_getD r2 r.current_index hidx2).1, hlast_fc]
    · rw [(record_failure_getD r2 r.current_index hidx2).2, hlast_sc]

/-- Witness for C4 at a concrete input: two models, both failing with a 500,
a fresh two-key rotator: `ALL_MODELS_FAILED` with records `["a", "b"]` and
one failure recorded against credential 0. -/
theorem c4_all_models_failed_witness :
    ∃ res : GenResult,
      generate (fun _ => 0) 0 1 c4Beh ["a", "b"] none c4St = Except.ok res ∧
      res.codeOf = some "ALL_MODELS_FAILED" ∧
      res.attemptsOf.map AttemptRecord.model = ["a", "b"] ∧
      ∃ r' : ApiKeyRotator,
        res.stateOf.rotator = some r' ∧
        (r'.stats.getD c4Rot.current_index defaultKeyStats).failure_count =
          (c4Rot.stats.getD c4Rot.current_index defaultKeyStats).failure_count + 1 ∧
        (r'.stats.getD c4Rot.current_index defaultKeyStats).success_count =
          (c4Rot.stats.getD c4Rot.current_index defaultKeyStats).success_count :=
  c4_all_models_failed (fun _ => 0) 0 1 c4Beh ["a", "b"] c4St c4Rot rfl
    (by decide) rfl (by decide) (by decide)
    (fun m _ => ⟨⟨some 500, none, "boom"⟩,
      show (generateWithRetry 0 1 (fun _ => Except.error ⟨some 500, none, "boom"⟩)).result
          = Except.error ⟨some 500, none, "boom"⟩ from rfl,
      by decide⟩)

/-- Counterexample to C1 as stated: an invocation failing with a
401-classified error whose message mentions a connection problem IS retried
(3 invocations under budget 2) before the call aborts with `AUTH_ERROR` —
the claim's "the failed invocation is never retried" is false on the code,
whose retryability test looks only at status ≥ 500 or timeout/connection
message text and does not exempt 401/403. -/
theorem c1_counterexample_401_retried :
    errStatus authConnErr = some 401 ∧
    is_retryable authConnErr = true ∧
    (generateWithRetry 2 1 (behAuthConn "m")).invocations = 3 ∧
    (genLoop (fun _ => 0) 2 1 behAuthConn (some 0) ["m"] stTwoKeys []).codeOf =
      some "AUTH_ERROR" :=
  ⟨by decide, by decide, by decide, by decide⟩

/-- C1 (amended): when the retry-wrapped invocation of a model fails with a
401/403-classified error, the fallback loop aborts at once with a fatal
`AUTH_ERROR` carrying all attempts so far including the new record, no later
model is attempted (the conclusion holds for every `rest`), and a failure is
recorded to the credential rotator.  Amendment: the failed invocation is
guaranteed unretried only when its error message contains neither "timeout"
nor "connection" — the retry classifier does not exempt 401/403 from
message-based transient retries (see the counterexample). -/
theorem c1_auth_abort_amended (clock : Nat → ℚ) (n : Nat) (d : ℚ)
    (beh : String → Nat → Except Err String) (ki : Option Nat) (m : String)
    (rest : List String) (st : GenState) (attempts : List AttemptRecord)
    (e : Err) (r : ApiKeyRotator) (i : Nat)
    (hres : (generateWithRetry n d (beh m)).result = Except.error e)
    (hauth : errStatus e = some 401 ∨ errStatus e = some 403)
    (hrot : st.rotator = some r) (hki : ki = some i) :
    ∃ (ts : ℚ) (stf : GenState),
      genLoop clock n d beh ki (m :: rest) st attempts =
        GenResult.err "Authentication failed" "AUTH_ERROR"
          (attempts ++ [⟨m, e.msg, ts, errStatus e⟩]) (errStatus e) (some m) stf ∧
      stf.rotator = some (r.record_failure i) ∧
      (∀ e0 : Err, beh m 0 = Except.error e0 →
        (errStatus e0 = some 401 ∨ errStatus e0 = some 403) →
        msgHasTransient e0.msg = false →
        (generateWithRetry n d (beh m)).invocations = 1) := by
  subst hki
  simp only [genLoop]
  rw [hres]
  dsimp only
  rw [if_pos hauth]
  refine ⟨_, _, rfl, ?_, ?_⟩
  · apply recordRotFailure_rotator_some
    dsimp only
    rw [recordHealth_rotator_eq]
    dsimp only
    rw [rateRecord_rotator_eq]
    dsimp only
    rw [ratePredict_rotator_eq]
    exact hrot
  · intro e0 hbeh hauth0 hmsg
    have h429 : ¬(errStatus e0 = some 429) := by
      rcases hauth0 with h | h <;> rw [h] <;> simp
    have hnr : ¬(is_retryable e0 = true) := by
      unfold is_retryable
      rcases hauth0 with h | h <;> rw [h, hmsg] <;> decide
    unfold generateWithRetry retryAux
    rw [hbeh]
    dsimp only
    rw [if_neg h429, if_neg hnr]

/-- Witness for the amended C1 at a concrete input: the 401+"connection"
behaviour over a two-key rotator aborts with `AUTH_ERROR`, one attempt,
failure recorded against credential 0. -/
theorem c1_auth_abort_amended_witness :
    ∃ (ts : ℚ) (stf : GenState),
      genLoop (fun _ => 0) 2 1 behAuthConn (some 0) ["m"] stTwoKeys [] =
        GenResult.err "Authentication failed" "AUTH_ERROR"
          ([] ++ [⟨"m", authConnErr.msg, ts, errStatus authConnErr⟩])
          (errStatus authConnErr) (some "m") stf ∧
      stf.rotator =
        some ((mkApiKeyRotator ["k1", "k2"] "round-robin").record_failure 0) ∧
      (∀ e0 : Err, behAuthConn "m" 0 = Except.error e0 →
        (errStatus e0 = some 401 ∨ errStatus e0 = some 403) →
        msgHasTransient e0.msg = false →
        (generateWithRetry 2 1 (behAuthConn "m")).invocations = 1) :=
  c1_auth_abort_amended (fun _ => 0) 2 1 behAuthConn (some 0) "m" [] stTwoKeys []
    authConnErr (mkApiKeyRotator ["k1", "k2"] "round-robin") 0
    (show (generateWithRetry 2 1 (fun _ => Except.error authConnErr)).result =
        Except.error authConnErr from rfl)
    (Or.inl (by decide)) rfl rfl

/-- C10: in `generate_stream`, a model whose stream ends normally after zero
fragments is a silent soft failure: the loop advances with no `AttemptRecord`
appended and nothing recorded to the health monitor (first conjunct); when
every model behaves this way, the terminal `ALL_MODELS_FAILED` carries an
empty attempts list — strictly fewer records than models tried (second and
third conjuncts). -/
theorem c10_zero_fragment_soft_failure :
    (∀ (clock : Nat → ℚ) (sbeh : String → StreamBeh) (m : String)
       (rest : List String) (st : GenState) (yielded : List String)
       (attempts : List AttemptRecord), sbeh m = ⟨[], none⟩ →
       ∃ st' : GenState,
         streamLoop clock sbeh (m :: rest) st yielded attempts =
           streamLoop clock sbeh rest st' yielded attempts ∧
         st'.health = st.health ∧ st'.rotator = st.rotator) ∧
    (∀ (clock : Nat → ℚ) (sbeh : String → StreamBeh) (models : List String),
       (∀ m ∈ models, sbeh m = ⟨[], none⟩) →
       ∀ (st : GenState) (yielded : List String) (attempts : List AttemptRecord),
       ∃ st' : GenState,
         streamLoop clock sbeh models st yielded attempts =
           StreamResult.errAll yielded "All models failed for stream"
             "ALL_MODELS_FAILED" attempts st' ∧
         st'.health = st.health) ∧
    (∀ (clock : Nat → ℚ) (sbeh : String → StreamBeh) (models : List String)
       (st : GenState), st.rotator = none →
       (∀ m ∈ models, sbeh m = ⟨[], none⟩) → models ≠ [] →
       ∃ res : StreamResult,
         generate_stream clock sbeh models none st = Except.ok res ∧
         res.attemptsOf = [] ∧ res.yieldedOf = [] ∧
         res.attemptsOf.length < models.length) := by
  have part1 : ∀ (clock : Nat → ℚ) (sbeh : String → StreamBeh) (m : String)
      (rest : List String) (st : GenState) (yielded : List String)
      (attempts : List AttemptRecord), sbeh m = ⟨[], none⟩ →
      ∃ st' : GenState,
        streamLoop clock sbeh (m :: rest) st yielded attempts =
          streamLoop clock sbeh rest st' yielded attempts ∧
        st'.health = st.health ∧ st'.rotator = st.rotator := by
    intro clock sbeh m rest st yielded attempts hsb
    simp only [streamLoop]
    rw [hsb]
    dsimp only
    rw [if_pos (show ([] : List String).isEmpty = true from rfl)]
    rw [List.append_nil]
    refine ⟨_, rfl, ?_, ?_⟩
    · dsimp only
      rw [rateRecord_health_eq]
    · dsimp only
      rw [rateRecord_rotator_eq]
  have part2 : ∀ (clock : Nat → ℚ) (sbeh : String → StreamBeh)
      (models : List String),
      (∀ m ∈ models, sbeh m = ⟨[], none⟩) →
      ∀ (st : GenState) (yielded : List String) (attempts : List AttemptRecord),
      ∃ st' : GenState,
        streamLoop clock sbeh models st yielded attempts =
          StreamResult.errAll yielded "All models failed for stream"
            "ALL_MODELS_FAILED" attempts st' ∧
        st'.health = st.health := by
    intro clock sbeh models
    induction models with
    | nil =>
      intro _ st yielded attempts
      exact ⟨st, by simp [streamLoop], rfl⟩
    | cons m rest ih =>
      intro hall st yielded attempts
      obtain ⟨st1, heq, hh1, _⟩ :=
        part1 clock sbeh m rest st yielded attempts (hall m (List.mem_cons_self m rest))
      obtain ⟨st', heq2, hh2⟩ :=
        ih (fun m' hm' => hall m' (List.mem_cons_of_mem m hm')) st1 yielded attempts
      exact ⟨st', heq.trans heq2, hh2.trans hh1⟩
  refine ⟨part1, part2, ?_⟩
  intro clock sbeh models st hrot hall hne
  obtain ⟨st', heq, _⟩ := part2 clock sbeh models hall st [] []
  refine ⟨StreamResult.errAll [] "All models failed for stream" "ALL_MODELS_FAILED"
    [] st', ?_, rfl, rfl, ?_⟩
  · unfold generate_stream getApiKey
    rw [hrot]
    dsimp only
    simp only [modelsToTry]
    rw [heq]
  · simpa using List.length_pos.mpr hne

/-- Witness for C10 at a concrete input: two models both yielding zero
fragments and ending normally: the terminal stream error carries no attempt
records. -/
theorem c10_zero_fragment_soft_failure_witness :
    ∃ res : StreamResult,
      generate_stream (fun _ => 0) (fun _ => ⟨[], none⟩) ["a", "b"] none
          ⟨none, some "k", none, none, 0⟩ = Except.ok res ∧
      res.attemptsOf = [] ∧ res.yieldedOf = [] ∧
      res.attemptsOf.length < (["a", "b"] : List String).length :=
  c10_zero_fragment_soft_failure.2.2 (fun _ => 0) (fun _ => ⟨[], none⟩)
    ["a", "b"] ⟨none, some "k", none, none, 0⟩ rfl (fun _ _ => rfl) (by decide)

end Gemback
